import Mathlib

/-!
# Verification of `src/entrypoints/prepare.ts`

A shallow embedding of the `prepare` entrypoint script.  The script is a
single sequential pipeline; we model it as a pure function from its inputs
(the process environment, the current time `Date.now()`, the response the
OAuth token endpoint would give to the single possible refresh request, and
the results of the external collaborator modules) to an observable trace of
effects (HTTP calls, directory creation, file writes, collaborator
invocations, action outputs) together with a success/failure outcome.

Machine integers (epoch milliseconds, `expires_in` seconds) are modelled as
`Int`; JavaScript numbers at these magnitudes behave as exact integers.
-/

namespace Prepare

/-- The process environment variables read by the script.  `none` models an
unset variable; JavaScript `process.env.X || ""` becomes `getD ""` followed
by an emptiness test (both `undefined` and `""` are falsy). -/
structure Env where
  CLAUDE_ACCESS_TOKEN : Option String
  CLAUDE_REFRESH_TOKEN : Option String
  CLAUDE_EXPIRES_AT : Option String
  USE_OAUTH : Option String
deriving Repr, DecidableEq

/-- The response the OAuth token endpoint gives to the refresh POST.
`ok`/`status`/`bodyText` model `response.ok`, `response.status` and
`await response.text()`.  The remaining fields model the parsed JSON body
`await response.json()`: the code reads `data.access_token` and
`data.expires_in`; `refresh_token` models a rotated refresh token the
endpoint may also return, which the code never reads. -/
structure RefreshResponse where
  ok : Bool
  status : Nat
  bodyText : String
  access_token : String
  expires_in : Int
  refresh_token : String
deriving Repr, DecidableEq

/-- The inner object of the credentials file, mirroring the object literal
assigned to `credentialsData.claudeAiOauth` (same field names).
`expiresAt := none` encodes the JSON `null` that `JSON.stringify` produces
for a `NaN` expiry. -/
structure ClaudeAiOauth where
  accessToken : String
  refreshToken : String
  expiresAt : Option Int
  scopes : List String
deriving Repr, DecidableEq

/-- The full object serialized to the credentials file: the inner record
nested under the single top-level key `claudeAiOauth`. -/
structure CredentialsData where
  claudeAiOauth : ClaudeAiOauth
deriving Repr, DecidableEq

/-- Observable effects of a run, in program order.  `callStep n` records the
invocation of collaborator/step `n`; `writeJson` records `writeFile` of the
`JSON.stringify`-ed object (modelled structurally). -/
inductive Effect where
  | httpPost (url : String) (body : List (String × String))
  | mkdirRecursive (path : String)
  | writeJson (path : String) (contents : CredentialsData)
  | callStep (name : String)
  | setOutput (name : String) (value : String)
deriving Repr, DecidableEq

/-- Models JavaScript `parseInt(s)` on decimal inputs: an optional sign
followed by a maximal prefix of decimal digits; `none` models `NaN` (no
digit found).  The builtin's leading-whitespace and `0x` handling is not
exercised by this program's numeric-string inputs. -/
def jsParseInt (s : String) : Option Int :=
  let signAndRest : Int × List Char :=
    match s.data with
    | '-' :: cs => (-1, cs)
    | '+' :: cs => (1, cs)
    | cs => (1, cs)
  let digits := signAndRest.2.takeWhile Char.isDigit
  if digits.isEmpty then none
  else some (signAndRest.1 *
    (digits.foldl (fun acc c => acc * 10 + (c.toNat - '0'.toNat)) (0 : Nat) : Nat))

/-- JavaScript `a <= b` where `a` may be `NaN` (`none`): every comparison
with `NaN` is false. -/
def jsLeNaN : Option Int → Int → Bool
  | none, _ => false
  | some a, b => decide (a ≤ b)

/-- The fixed OAuth token endpoint URL. -/
def oauthTokenUrl : String := "https://api.anthropic.com/oauth/token"

/-- Result of a successful token refresh. -/
structure RefreshResult where
  accessToken : String
  expiresAt : Int
deriving Repr, DecidableEq

/-- `refreshOAuthToken(refreshToken)`: one POST to the token endpoint with a
form-encoded body; on a non-2xx response, throw
`Failed to refresh token: <status> <bodyText>`; otherwise return the fresh
access token together with `Date.now() + expires_in * 1000`. -/
def refreshOAuthToken (refreshToken : String) (now : Int) (resp : RefreshResponse) :
    Except String RefreshResult × List Effect :=
  let eff := [Effect.httpPost oauthTokenUrl
    [("grant_type", "refresh_token"), ("refresh_token", refreshToken)]]
  if resp.ok then
    (Except.ok { accessToken := resp.access_token,
                 expiresAt := now + resp.expires_in * 1000 }, eff)
  else
    (Except.error ("Failed to refresh token: " ++ toString resp.status ++ " " ++ resp.bodyText),
     eff)

/-- The fixed scopes list of the credentials record. -/
def oauthScopes : List String := ["user:inference", "user:profile"]

/-- The effects of the credentials-file write at the end of
`setupOAuthCredentials`: `mkdir -p ~/.claude` then write
`~/.claude/.credentials.json` (note the leading dot in the file name). -/
def writeCredentialsEffects (home finalAccessToken refreshToken : String)
    (finalExpiresAt : Option Int) : List Effect :=
  [Effect.mkdirRecursive (home ++ "/.claude"),
   Effect.writeJson (home ++ "/.claude/.credentials.json")
     { claudeAiOauth :=
       { accessToken := finalAccessToken
         refreshToken := refreshToken
         expiresAt := finalExpiresAt
         scopes := oauthScopes } }]

/-- `setupOAuthCredentials()`: read the three credential environment
variables (empty/unset ⇒ `OAuth credentials are incomplete`); if the parsed
expiry is at most five minutes away (`expiresAtMs <= now + 5*60*1000`,
false for `NaN`), refresh once and use the refreshed pair, otherwise keep
the environment pair; finally write the credentials file.  The
`refreshToken` field written is always the environment one. -/
def setupOAuthCredentials (env : Env) (now : Int) (resp : RefreshResponse)
    (home : String) : Except String Unit × List Effect :=
  let accessToken := env.CLAUDE_ACCESS_TOKEN.getD ""
  let refreshToken := env.CLAUDE_REFRESH_TOKEN.getD ""
  let expiresAt := env.CLAUDE_EXPIRES_AT.getD ""
  if accessToken = "" ∨ refreshToken = "" ∨ expiresAt = "" then
    (Except.error "OAuth credentials are incomplete", [])
  else
    let expiresAtMs := jsParseInt expiresAt
    if jsLeNaN expiresAtMs (now + 5 * 60 * 1000) then
      match refreshOAuthToken refreshToken now resp with
      | (Except.error e, eff) => (Except.error e, eff)
      | (Except.ok refreshed, eff) =>
        (Except.ok (),
         eff ++ writeCredentialsEffects home refreshed.accessToken refreshToken
           (some refreshed.expiresAt))
    else
      (Except.ok (), writeCredentialsEffects home accessToken refreshToken expiresAtMs)

/-- `branchInfo` as returned by the `setupBranch` collaborator; only the
fields the entrypoint reads. -/
structure BranchInfo where
  claudeBranch : Option String
  defaultBranch : String
  currentBranch : String
deriving Repr, DecidableEq

/-- JavaScript truthiness of a possibly-undefined string
(`if (branchInfo.claudeBranch)`): `undefined` and `""` are falsy. -/
def jsTruthyStr : Option String → Bool
  | none => false
  | some s => s ≠ ""

/-- The results of the external collaborator modules imported by the
entrypoint (trigger check, GitHub operations, prompt and MCP config
creation).  Each awaited call either returns a value or throws; the
entrypoint treats them as opaque, so each is modelled by its outcome. -/
structure Collab where
  setupGitHubToken : Except String String
  parseGitHubContext : Except String Unit
  checkWritePermissions : Except String Bool
  checkTriggerAction : Except String Bool
  checkHumanActor : Except String Unit
  createInitialComment : Except String Int
  fetchGitHubData : Except String Unit
  setupBranch : Except String BranchInfo
  updateTrackingComment : Except String Unit
  createPrompt : Except String Unit
  prepareMcpConfig : Except String String

/-- Sequencing of an awaited computation: a thrown error aborts with the
trace so far, a value is passed to the continuation. -/
def andThen {α : Type} (r : Except String α × List Effect)
    (k : α → List Effect → Except String Unit × List Effect) :
    Except String Unit × List Effect :=
  match r with
  | (Except.error e, tr) => (Except.error e, tr)
  | (Except.ok a, tr) => k a tr

/-- An awaited collaborator call: the invocation is recorded on the trace
(also when it throws), then its outcome is sequenced. -/
def callStepEff {α : Type} (name : String) (r : Except String α)
    (tr : List Effect) : Except String α × List Effect :=
  (r, tr ++ [Effect.callStep name])

/-- The body of `run()` (the part inside the top-level `try`): the fixed
pipeline of steps 1–12 followed by the two `core.setOutput` calls.  Returns
the outcome together with the trace of effects that happened before the
outcome was reached. -/
def runBody (env : Env) (now : Int) (resp : RefreshResponse) (home : String)
    (c : Collab) : Except String Unit × List Effect :=
  andThen (callStepEff "setupGitHubToken" c.setupGitHubToken []) fun githubToken tr =>
  andThen (callStepEff "parseGitHubContext" c.parseGitHubContext tr) fun _ tr =>
  andThen (callStepEff "checkWritePermissions" c.checkWritePermissions tr) fun hasWritePermissions tr =>
  if !hasWritePermissions then
    (Except.error "Actor does not have write permissions to the repository", tr)
  else
  andThen (callStepEff "checkTriggerAction" c.checkTriggerAction tr) fun containsTrigger tr =>
  if !containsTrigger then
    (Except.ok (), tr)
  else
  andThen (callStepEff "checkHumanActor" c.checkHumanActor tr) fun _ tr =>
  andThen (callStepEff "createInitialComment" c.createInitialComment tr) fun _commentId tr =>
  andThen (callStepEff "fetchGitHubData" c.fetchGitHubData tr) fun _githubData tr =>
  andThen (callStepEff "setupBranch" c.setupBranch tr) fun branchInfo tr =>
  andThen (if jsTruthyStr branchInfo.claudeBranch then
             callStepEff "updateTrackingComment" c.updateTrackingComment tr
           else (Except.ok (), tr)) fun _ tr =>
  andThen (callStepEff "createPrompt" c.createPrompt tr) fun _ tr =>
  andThen (callStepEff "prepareMcpConfig" c.prepareMcpConfig tr) fun mcpConfig tr =>
  andThen (if env.USE_OAUTH = some "true" then
             let r := setupOAuthCredentials env now resp home
             (r.1, tr ++ (Effect.callStep "setupOAuthCredentials" :: r.2))
           else (Except.ok (), tr)) fun _ tr =>
  (Except.ok (), tr ++ [Effect.setOutput "mcp_config" mcpConfig,
                        Effect.setOutput "github_token" githubToken])

/-- The observable outcome of `run()`: the effect trace, the message passed
to `core.setFailed` when the top-level `catch` fired (`none` otherwise),
and the process exit code (`process.exit(1)` in the catch, implicit `0` on
success). -/
structure RunOutcome where
  trace : List Effect
  failureMessage : Option String
  exitCode : Nat
deriving Repr, DecidableEq

/-- `run()`: the pipeline body wrapped in the single top-level
`try`/`catch`.  A caught error `e` (a JavaScript `Error`, whose string
interpolation is `Error: <message>`) is reported once via
`core.setFailed` and the process exits with code 1. -/
def run (env : Env) (now : Int) (resp : RefreshResponse) (home : String)
    (c : Collab) : RunOutcome :=
  match runBody env now resp home c with
  | (Except.ok _, tr) => { trace := tr, failureMessage := none, exitCode := 0 }
  | (Except.error e, tr) =>
    { trace := tr
      failureMessage := some ("Prepare step failed with error: Error: " ++ e)
      exitCode := 1 }

/-- Number of HTTP POST requests on a trace. -/
def httpPostCount (tr : List Effect) : Nat :=
  (tr.filter fun eff => match eff with
    | Effect.httpPost _ _ => true
    | _ => false).length

/-- Number of file writes on a trace. -/
def writeCount (tr : List Effect) : Nat :=
  (tr.filter fun eff => match eff with
    | Effect.writeJson _ _ => true
    | _ => false).length

/-- Whether a trace records an invocation of the named step. -/
def hasCall (tr : List Effect) (n : String) : Bool :=
  tr.any fun eff => match eff with
    | Effect.callStep m => m = n
    | _ => false

/-- Whether a trace records any `core.setOutput`. -/
def hasOutput (tr : List Effect) : Bool :=
  tr.any fun eff => match eff with
    | Effect.setOutput _ _ => true
    | _ => false

/-- The pipeline steps of `run()` in program order (steps 1–12; step 12 is
the conditional `setupOAuthCredentials` call). -/
def pipelineOrder : List String :=
  ["setupGitHubToken", "parseGitHubContext", "checkWritePermissions",
   "checkTriggerAction", "checkHumanActor", "createInitialComment",
   "fetchGitHubData", "setupBranch", "updateTrackingComment", "createPrompt",
   "prepareMcpConfig", "setupOAuthCredentials"]

/-- The pipeline steps strictly after the named step. -/
def stepSuccessors (n : String) : List String :=
  (pipelineOrder.dropWhile (fun m => m != n)).tail

end Prepare

namespace Prepare

/-! ## Counter and trace lemmas -/

@[simp] theorem httpPostCount_nil : httpPostCount [] = 0 := rfl

@[simp] theorem httpPostCount_append (a b : List Effect) :
    httpPostCount (a ++ b) = httpPostCount a + httpPostCount b := by
  simp [httpPostCount, List.filter_append]

@[simp] theorem httpPostCount_cons (eff : Effect) (tr : List Effect) :
    httpPostCount (eff :: tr) =
      (match eff with
        | Effect.httpPost _ _ => 1
        | _ => 0) + httpPostCount tr := by
  cases eff <;> simp [httpPostCount, List.filter, Nat.add_comm]

@[simp] theorem writeCount_nil : writeCount [] = 0 := rfl

@[simp] theorem writeCount_append (a b : List Effect) :
    writeCount (a ++ b) = writeCount a + writeCount b := by
  simp [writeCount, List.filter_append]

@[simp] theorem writeCount_cons (eff : Effect) (tr : List Effect) :
    writeCount (eff :: tr) =
      (match eff with
        | Effect.writeJson _ _ => 1
        | _ => 0) + writeCount tr := by
  cases eff <;> simp [writeCount, List.filter, Nat.add_comm]

@[simp] theorem hasCall_nil (n : String) : hasCall [] n = false := rfl

@[simp] theorem hasCall_append (a b : List Effect) (n : String) :
    hasCall (a ++ b) n = (hasCall a n || hasCall b n) := by
  simp [hasCall, List.any_append]

@[simp] theorem hasCall_cons (eff : Effect) (tr : List Effect) (n : String) :
    hasCall (eff :: tr) n =
      ((match eff with
        | Effect.callStep m => decide (m = n)
        | _ => false) || hasCall tr n) := by
  cases eff <;> simp [hasCall, List.any]

@[simp] theorem hasOutput_nil : hasOutput [] = false := rfl

@[simp] theorem hasOutput_append (a b : List Effect) :
    hasOutput (a ++ b) = (hasOutput a || hasOutput b) := by
  simp [hasOutput, List.any_append]

@[simp] theorem hasOutput_cons (eff : Effect) (tr : List Effect) :
    hasOutput (eff :: tr) =
      ((match eff with
        | Effect.setOutput _ _ => true
        | _ => false) || hasOutput tr) := by
  cases eff <;> simp [hasOutput, List.any]

/-! ## Basic facts about `run` -/

@[simp] theorem run_trace (env : Env) (now : Int) (resp : RefreshResponse)
    (home : String) (c : Collab) :
    (run env now resp home c).trace = (runBody env now resp home c).2 := by
  rcases h : runBody env now resp home c with ⟨r, tr⟩
  rcases r <;> simp [run, h]

theorem run_of_runBody_error (env : Env) (now : Int) (resp : RefreshResponse)
    (home : String) (c : Collab) (e : String) (tr : List Effect)
    (h : runBody env now resp home c = (Except.error e, tr)) :
    run env now resp home c =
      { trace := tr
        failureMessage := some ("Prepare step failed with error: Error: " ++ e)
        exitCode := 1 } := by
  simp [run, h]

theorem run_of_runBody_ok (env : Env) (now : Int) (resp : RefreshResponse)
    (home : String) (c : Collab) (tr : List Effect)
    (h : runBody env now resp home c = (Except.ok (), tr)) :
    run env now resp home c = { trace := tr, failureMessage := none, exitCode := 0 } := by
  simp [run, h]

/-! ## Invariants of the credentials write -/

/-- Every file write performed by `setupOAuthCredentials` goes to
`<home>/.claude/.credentials.json`, persists the environment refresh token,
and carries the fixed scopes list. -/
theorem setupOAuth_write_inv (env : Env) (now : Int) (resp : RefreshResponse)
    (home p : String) (content : CredentialsData)
    (h : Effect.writeJson p content ∈ (setupOAuthCredentials env now resp home).2) :
    p = home ++ "/.claude/.credentials.json" ∧
    content.claudeAiOauth.refreshToken = env.CLAUDE_REFRESH_TOKEN.getD "" ∧
    content.claudeAiOauth.scopes = oauthScopes := by
  by_cases h0 : env.CLAUDE_ACCESS_TOKEN.getD "" = "" ∨
      env.CLAUDE_REFRESH_TOKEN.getD "" = "" ∨ env.CLAUDE_EXPIRES_AT.getD "" = ""
  · simp [setupOAuthCredentials, h0] at h
  · cases h1 : jsLeNaN (jsParseInt (env.CLAUDE_EXPIRES_AT.getD "")) (now + 300000)
    · simp [setupOAuthCredentials, h0, h1, writeCredentialsEffects] at h
      obtain ⟨hp, hc⟩ := h
      subst hp; subst hc
      simp
    · cases h2 : resp.ok
      · simp [setupOAuthCredentials, refreshOAuthToken, h0, h1, h2] at h
      · simp [setupOAuthCredentials, refreshOAuthToken, h0, h1, h2,
          writeCredentialsEffects] at h
        obtain ⟨hp, hc⟩ := h
        subst hp; subst hc
        simp

/-! ## C1: refresh exactly once when the token is present but near expiry -/

/-- C1, counterexample to the claim as stated: with OAuth enabled and the
access token *absent* (and the other two credentials present),
`setupOAuthCredentials` throws `OAuth credentials are incomplete` and makes
*zero* refresh POST calls, not exactly one. -/
theorem c1_absent_token_counterexample :
    setupOAuthCredentials ⟨none, some "token-r", some "2000", some "true"⟩ 2000000
        ⟨true, 200, "", "fresh-a", 3600, "rot-r"⟩ "/home/user" =
      (Except.error "OAuth credentials are incomplete", []) ∧
    httpPostCount (setupOAuthCredentials ⟨none, some "token-r", some "2000", some "true"⟩
        2000000 ⟨true, 200, "", "fresh-a", 3600, "rot-r"⟩ "/home/user").2 = 0 := by
  constructor <;> rfl

/-- **C1** (amended): when all three credential environment values are
present and the parsed expiry is at most 5 minutes (300000 ms) from now,
`setupOAuthCredentials` makes exactly one refresh HTTP POST, and when the
endpoint answers 2xx the (access token, expiry) pair resulting from that
refresh is the one persisted to the credentials file.  (An absent access
token instead aborts with `OAuth credentials are incomplete` and no HTTP
call, see the counterexample.) -/
theorem c1_near_expiry_single_refresh_persisted (env : Env) (now em : Int)
    (resp : RefreshResponse) (home : String)
    (ha : env.CLAUDE_ACCESS_TOKEN.getD "" ≠ "")
    (hr : env.CLAUDE_REFRESH_TOKEN.getD "" ≠ "")
    (he : env.CLAUDE_EXPIRES_AT.getD "" ≠ "")
    (hparse : jsParseInt (env.CLAUDE_EXPIRES_AT.getD "") = some em)
    (hnear : em ≤ now + 5 * 60 * 1000) :
    httpPostCount (setupOAuthCredentials env now resp home).2 = 1 ∧
    (resp.ok = true →
      setupOAuthCredentials env now resp home =
        (Except.ok (),
         [Effect.httpPost oauthTokenUrl
            [("grant_type", "refresh_token"),
             ("refresh_token", env.CLAUDE_REFRESH_TOKEN.getD "")],
          Effect.mkdirRecursive (home ++ "/.claude"),
          Effect.writeJson (home ++ "/.claude/.credentials.json")
            { claudeAiOauth :=
              { accessToken := resp.access_token
                refreshToken := env.CLAUDE_REFRESH_TOKEN.getD ""
                expiresAt := some (now + resp.expires_in * 1000)
                scopes := oauthScopes } }])) := by
  have h0 : ¬(env.CLAUDE_ACCESS_TOKEN.getD "" = "" ∨
      env.CLAUDE_REFRESH_TOKEN.getD "" = "" ∨ env.CLAUDE_EXPIRES_AT.getD "" = "") := by
    push_neg
    exact ⟨ha, hr, he⟩
  have h1 : jsLeNaN (jsParseInt (env.CLAUDE_EXPIRES_AT.getD "")) (now + 300000) = true := by
    rw [hparse]
    simp only [jsLeNaN, decide_eq_true_eq]
    omega
  constructor
  · cases h2 : resp.ok <;>
      simp [setupOAuthCredentials, refreshOAuthToken, h0, h1, h2, writeCredentialsEffects]
  · intro h2
    simp [setupOAuthCredentials, refreshOAuthToken, h0, h1, h2, writeCredentialsEffects]

/-- Witness for C1 at a concrete input: token expiring at 5000 ms with the
clock at 1000 ms. -/
theorem c1_witness :
    jsParseInt "5000" = some 5000 ∧
    httpPostCount (setupOAuthCredentials
        ⟨some "token-a", some "token-r", some "5000", some "true"⟩ 1000
        ⟨true, 200, "", "fresh-a", 3600, "rot-r"⟩ "/home/user").2 = 1 :=
  ⟨by decide,
   (c1_near_expiry_single_refresh_persisted
      ⟨some "token-a", some "token-r", some "5000", some "true"⟩ 1000 5000
      ⟨true, 200, "", "fresh-a", 3600, "rot-r"⟩ "/home/user"
      (by decide) (by decide) (by decide) (by decide) (by decide)).1⟩

/-! ## C2: credentials file path and JSON shape -/

/-- C2, counterexample to the claim as stated: on a concrete valid-token
run the single file write goes to `<home>/.claude/.credentials.json` (note
the leading dot) and its JSON nests the credential record under the
top-level key `claudeAiOauth`; in particular the write path differs from
the claimed `<home>/.claude/credentials.json`. -/
theorem c2_counterexample :
    (setupOAuthCredentials
        ⟨some "token-a", some "token-r", some "9999999999999", some "true"⟩ 1000
        ⟨true, 200, "", "fresh-a", 3600, "rot-r"⟩ "/home/user").2 =
      [Effect.mkdirRecursive "/home/user/.claude",
       Effect.writeJson "/home/user/.claude/.credentials.json"
         { claudeAiOauth :=
           { accessToken := "token-a"
             refreshToken := "token-r"
             expiresAt := some 9999999999999
             scopes := oauthScopes } }] ∧
    "/home/user/.claude/.credentials.json" ≠ "/home/user/.claude/credentials.json" := by
  constructor
  · rfl
  · decide

/-- **C2** (amended): every credentials write of `setupOAuthCredentials`
goes to `<home>/.claude/.credentials.json` (leading dot), and the JSON
written is the record `{accessToken, refreshToken, expiresAt, scopes}`
nested under the single top-level key `claudeAiOauth`, with the fixed
scopes `["user:inference", "user:profile"]`. -/
theorem c2_credentials_path_and_shape (env : Env) (now : Int) (resp : RefreshResponse)
    (home p : String) (content : CredentialsData)
    (h : Effect.writeJson p content ∈ (setupOAuthCredentials env now resp home).2) :
    p = home ++ "/.claude/.credentials.json" ∧
    content = { claudeAiOauth :=
      { accessToken := content.claudeAiOauth.accessToken
        refreshToken := env.CLAUDE_REFRESH_TOKEN.getD ""
        expiresAt := content.claudeAiOauth.expiresAt
        scopes := oauthScopes } } := by
  obtain ⟨h1, h2, h3⟩ := setupOAuth_write_inv env now resp home p content h
  refine ⟨h1, ?_⟩
  obtain ⟨⟨a, r, e, s⟩⟩ := content
  simp_all

/-- Witness for C2 at a concrete input: a run with a still-valid token. -/
theorem c2_witness :
    ("/h/.claude/.credentials.json" : String) = "/h" ++ "/.claude/.credentials.json" ∧
    ({ claudeAiOauth :=
       { accessToken := "a", refreshToken := "r", expiresAt := some 999999999,
         scopes := oauthScopes } } : CredentialsData) =
      { claudeAiOauth :=
        { accessToken := "a", refreshToken := "r", expiresAt := some 999999999,
          scopes := oauthScopes } } :=
  c2_credentials_path_and_shape ⟨some "a", some "r", some "999999999", some "true"⟩ 0
    ⟨false, 500, "x", "", 0, "rot"⟩ "/h" "/h/.claude/.credentials.json"
    { claudeAiOauth :=
      { accessToken := "a", refreshToken := "r", expiresAt := some 999999999,
        scopes := oauthScopes } }
    (by decide)

/-! ## C4: no refresh call while the token is far from expiry -/

/-- C4, counterexample to the claim as stated: a token whose expiry
(2000 ms) is later than the current time (1000 ms) — i.e. non-expired — but
within the 5-minute window still triggers a refresh POST, so "non-expired ⇒
no refresh call" fails. -/
theorem c4_counterexample :
    (1000 : Int) < 2000 ∧
    httpPostCount (setupOAuthCredentials
        ⟨some "token-a", some "token-r", some "2000", some "true"⟩ 1000
        ⟨true, 200, "", "fresh-a", 3600, "rot-r"⟩ "/home/user").2 = 1 := by
  constructor
  · decide
  · rfl

/-- **C4** (amended): when the parsed expiry timestamp is more than
5 minutes (300000 ms) after the current time, `setupOAuthCredentials`
makes no refresh HTTP call. -/
theorem c4_no_refresh_when_expiry_far (env : Env) (now em : Int)
    (resp : RefreshResponse) (home : String)
    (hparse : jsParseInt (env.CLAUDE_EXPIRES_AT.getD "") = some em)
    (hfar : now + 5 * 60 * 1000 < em) :
    httpPostCount (setupOAuthCredentials env now resp home).2 = 0 := by
  by_cases h0 : env.CLAUDE_ACCESS_TOKEN.getD "" = "" ∨
      env.CLAUDE_REFRESH_TOKEN.getD "" = "" ∨ env.CLAUDE_EXPIRES_AT.getD "" = ""
  · simp [setupOAuthCredentials, h0]
  · have h1 : jsLeNaN (jsParseInt (env.CLAUDE_EXPIRES_AT.getD "")) (now + 300000) = false := by
      rw [hparse]
      simp only [jsLeNaN, decide_eq_false_iff_not]
      omega
    simp [setupOAuthCredentials, h0, h1, writeCredentialsEffects]

/-- Witness for C4 at a concrete input: expiry 999999999 ms, clock 0 ms. -/
theorem c4_witness :
    jsParseInt "999999999" = some 999999999 ∧
    httpPostCount (setupOAuthCredentials
        ⟨some "token-a", some "token-r", some "999999999", some "true"⟩ 0
        ⟨true, 200, "", "fresh-a", 3600, "rot-r"⟩ "/home/user").2 = 0 :=
  ⟨by decide,
   c4_no_refresh_when_expiry_far
     ⟨some "token-a", some "token-r", some "999999999", some "true"⟩ 0 999999999
     ⟨true, 200, "", "fresh-a", 3600, "rot-r"⟩ "/home/user" (by decide) (by decide)⟩

/-! ## C8: the persisted refresh token is always the environment one -/

/-- **C8**: every credentials file written by `setupOAuthCredentials`
persists the refresh token taken from `CLAUDE_REFRESH_TOKEN` — also when a
refresh HTTP call was made — so a rotated refresh token returned by the
endpoint is never persisted. -/
theorem c8_refresh_token_never_rotated (env : Env) (now : Int) (resp : RefreshResponse)
    (home p : String) (content : CredentialsData)
    (h : Effect.writeJson p content ∈ (setupOAuthCredentials env now resp home).2) :
    content.claudeAiOauth.refreshToken = env.CLAUDE_REFRESH_TOKEN.getD "" ∧
    (resp.refresh_token ≠ env.CLAUDE_REFRESH_TOKEN.getD "" →
      content.claudeAiOauth.refreshToken ≠ resp.refresh_token) := by
  obtain ⟨-, h2, -⟩ := setupOAuth_write_inv env now resp home p content h
  refine ⟨h2, fun hne heq => hne ?_⟩
  rw [← heq, h2]

/-- Witness for C8 at a concrete input: the endpoint rotates the refresh
token to `rot-r`, yet the persisted one is the environment's `token-r`. -/
theorem c8_witness :
    ({ claudeAiOauth :=
       { accessToken := "fresh-a", refreshToken := "token-r", expiresAt := some 3601000,
         scopes := oauthScopes } } : CredentialsData).claudeAiOauth.refreshToken =
      "token-r" ∧
    ("rot-r" : String) ≠ "token-r" :=
  ⟨(c8_refresh_token_never_rotated
      ⟨some "token-a", some "token-r", some "2000", some "true"⟩ 1000
      ⟨true, 200, "", "fresh-a", 3600, "rot-r"⟩ "/home/user"
      "/home/user/.claude/.credentials.json"
      { claudeAiOauth :=
        { accessToken := "fresh-a", refreshToken := "token-r", expiresAt := some 3601000,
          scopes := oauthScopes } }
      (by decide)).1,
   by decide⟩

/-! ## C5: early exit when the trigger check returns false -/

/-- **C5**: whenever the trigger check returns `false`, no tracking comment
is posted (`createInitialComment` never runs), no branch is created
(`setupBranch` never runs), no later pipeline step (human-actor check, data
fetch, prompt creation, MCP config, OAuth setup) runs, and no HTTP call or
file write happens. -/
theorem c5_no_trigger_early_exit (env : Env) (now : Int) (resp : RefreshResponse)
    (home : String) (c : Collab)
    (h : c.checkTriggerAction = Except.ok false) :
    (∀ n ∈ stepSuccessors "checkTriggerAction",
        hasCall (run env now resp home c).trace n = false) ∧
    httpPostCount (run env now resp home c).trace = 0 ∧
    writeCount (run env now resp home c).trace = 0 := by
  rcases hf1 : c.setupGitHubToken with e1 | v1
  · simp [runBody, andThen, callStepEff, hf1, stepSuccessors, pipelineOrder]
  rcases hf2 : c.parseGitHubContext with e2 | v2
  · simp [runBody, andThen, callStepEff, hf1, hf2, stepSuccessors, pipelineOrder]
  rcases hf3 : c.checkWritePermissions with e3 | b3
  · simp [runBody, andThen, callStepEff, hf1, hf2, hf3, stepSuccessors, pipelineOrder]
  cases b3
  · simp [runBody, andThen, callStepEff, hf1, hf2, hf3, stepSuccessors, pipelineOrder]
  · simp [runBody, andThen, callStepEff, hf1, hf2, hf3, h, stepSuccessors, pipelineOrder]

/-- Witness for C5 at a concrete input: a collaborator set whose trigger
check returns `false`. -/
theorem c5_witness :
    (∀ n ∈ stepSuccessors "checkTriggerAction",
        hasCall (run ⟨none, none, none, none⟩ 0 ⟨true, 200, "", "", 0, ""⟩ "/h"
          ⟨Except.ok "gtok", Except.ok (), Except.ok true, Except.ok false, Except.ok (),
           Except.ok 7, Except.ok (), Except.ok ⟨some "b", "main", "b"⟩, Except.ok (),
           Except.ok (), Except.ok "mcp"⟩).trace n = false) ∧
    httpPostCount (run ⟨none, none, none, none⟩ 0 ⟨true, 200, "", "", 0, ""⟩ "/h"
        ⟨Except.ok "gtok", Except.ok (), Except.ok true, Except.ok false, Except.ok (),
         Except.ok 7, Except.ok (), Except.ok ⟨some "b", "main", "b"⟩, Except.ok (),
         Except.ok (), Except.ok "mcp"⟩).trace = 0 ∧
    writeCount (run ⟨none, none, none, none⟩ 0 ⟨true, 200, "", "", 0, ""⟩ "/h"
        ⟨Except.ok "gtok", Except.ok (), Except.ok true, Except.ok false, Except.ok (),
         Except.ok 7, Except.ok (), Except.ok ⟨some "b", "main", "b"⟩, Except.ok (),
         Except.ok (), Except.ok "mcp"⟩).trace = 0 :=
  c5_no_trigger_early_exit ⟨none, none, none, none⟩ 0 ⟨true, 200, "", "", 0, ""⟩ "/h"
    ⟨Except.ok "gtok", Except.ok (), Except.ok true, Except.ok false, Except.ok (),
     Except.ok 7, Except.ok (), Except.ok ⟨some "b", "main", "b"⟩, Except.ok (),
     Except.ok (), Except.ok "mcp"⟩ rfl

/-! ## C10: a trigger-less run succeeds but emits no outputs -/

/-- **C10**: when the steps before the trigger check succeed and the
trigger check returns `false`, the run completes successfully — no failure
message, exit code 0 — and the outputs `mcp_config` and `github_token` are
never emitted (`core.setOutput` is never called). -/
theorem c10_no_trigger_success_no_outputs (env : Env) (now : Int)
    (resp : RefreshResponse) (home : String) (c : Collab) (gtok : String)
    (h1 : c.setupGitHubToken = Except.ok gtok)
    (h2 : c.parseGitHubContext = Except.ok ())
    (h3 : c.checkWritePermissions = Except.ok true)
    (h4 : c.checkTriggerAction = Except.ok false) :
    run env now resp home c =
      { trace := [Effect.callStep "setupGitHubToken", Effect.callStep "parseGitHubContext",
                  Effect.callStep "checkWritePermissions", Effect.callStep "checkTriggerAction"]
        failureMessage := none
        exitCode := 0 } ∧
    hasOutput (run env now resp home c).trace = false := by
  have hb : runBody env now resp home c =
      (Except.ok (),
       [Effect.callStep "setupGitHubToken", Effect.callStep "parseGitHubContext",
        Effect.callStep "checkWritePermissions", Effect.callStep "checkTriggerAction"]) := by
    simp [runBody, andThen, callStepEff, h1, h2, h3, h4]
  refine ⟨run_of_runBody_ok env now resp home c _ hb, ?_⟩
  simp [hb]

/-- Witness for C10 at a concrete input. -/
theorem c10_witness :
    run ⟨none, none, none, some "true"⟩ 5 ⟨true, 200, "", "", 0, ""⟩ "/home/u"
      ⟨Except.ok "tok-g", Except.ok (), Except.ok true, Except.ok false, Except.ok (),
       Except.ok 9, Except.ok (), Except.ok ⟨none, "main", "main"⟩, Except.ok (),
       Except.ok (), Except.ok "cfg"⟩ =
      { trace := [Effect.callStep "setupGitHubToken", Effect.callStep "parseGitHubContext",
                  Effect.callStep "checkWritePermissions", Effect.callStep "checkTriggerAction"]
        failureMessage := none
        exitCode := 0 } :=
  (c10_no_trigger_success_no_outputs ⟨none, none, none, some "true"⟩ 5
    ⟨true, 200, "", "", 0, ""⟩ "/home/u"
    ⟨Except.ok "tok-g", Except.ok (), Except.ok true, Except.ok false, Except.ok (),
     Except.ok 9, Except.ok (), Except.ok ⟨none, "main", "main"⟩, Except.ok (),
     Except.ok (), Except.ok "cfg"⟩ "tok-g" rfl rfl rfl rfl).1

/-! ## C3: a failed refresh aborts the run with status and body in the error -/

/-- **C3**: when the OAuth token endpoint answers non-2xx on a refresh
attempt, `refreshOAuthToken` raises `Failed to refresh token: <status>
<bodyText>` (both the status code and the body text appear in the message),
and the run aborts: the failure is reported with that message, the process
exits non-zero, no credentials file is written, and exactly one POST was
made (no retry). -/
theorem c3_failed_refresh_aborts_run (env : Env) (now em : Int)
    (resp : RefreshResponse) (home : String) (c : Collab) (gtok mcp : String)
    (cid : Int) (bi : BranchInfo)
    (hok : resp.ok = false)
    (hu : env.USE_OAUTH = some "true")
    (ha : env.CLAUDE_ACCESS_TOKEN.getD "" ≠ "")
    (hr : env.CLAUDE_REFRESH_TOKEN.getD "" ≠ "")
    (he : env.CLAUDE_EXPIRES_AT.getD "" ≠ "")
    (hparse : jsParseInt (env.CLAUDE_EXPIRES_AT.getD "") = some em)
    (hnear : em ≤ now + 5 * 60 * 1000)
    (h1 : c.setupGitHubToken = Except.ok gtok)
    (h2 : c.parseGitHubContext = Except.ok ())
    (h3 : c.checkWritePermissions = Except.ok true)
    (h4 : c.checkTriggerAction = Except.ok true)
    (h5 : c.checkHumanActor = Except.ok ())
    (h6 : c.createInitialComment = Except.ok cid)
    (h7 : c.fetchGitHubData = Except.ok ())
    (h8 : c.setupBranch = Except.ok bi)
    (h9 : c.updateTrackingComment = Except.ok ())
    (h10 : c.createPrompt = Except.ok ())
    (h11 : c.prepareMcpConfig = Except.ok mcp) :
    (refreshOAuthToken (env.CLAUDE_REFRESH_TOKEN.getD "") now resp).1 =
      Except.error ("Failed to refresh token: " ++ toString resp.status ++ " " ++
        resp.bodyText) ∧
    (run env now resp home c).exitCode = 1 ∧
    (run env now resp home c).failureMessage =
      some ("Prepare step failed with error: Error: " ++
        ("Failed to refresh token: " ++ toString resp.status ++ " " ++ resp.bodyText)) ∧
    writeCount (run env now resp home c).trace = 0 ∧
    httpPostCount (run env now resp home c).trace = 1 := by
  have h0 : ¬(env.CLAUDE_ACCESS_TOKEN.getD "" = "" ∨
      env.CLAUDE_REFRESH_TOKEN.getD "" = "" ∨ env.CLAUDE_EXPIRES_AT.getD "" = "") := by
    push_neg
    exact ⟨ha, hr, he⟩
  have hle : jsLeNaN (jsParseInt (env.CLAUDE_EXPIRES_AT.getD "")) (now + 300000) = true := by
    rw [hparse]
    simp only [jsLeNaN, decide_eq_true_eq]
    omega
  have hsetup : setupOAuthCredentials env now resp home =
      (Except.error ("Failed to refresh token: " ++ toString resp.status ++ " " ++
         resp.bodyText),
       [Effect.httpPost oauthTokenUrl
          [("grant_type", "refresh_token"),
           ("refresh_token", env.CLAUDE_REFRESH_TOKEN.getD "")]]) := by
    simp [setupOAuthCredentials, refreshOAuthToken, h0, hle, hok]
  refine ⟨by simp [refreshOAuthToken, hok], ?_⟩
  cases hbi : jsTruthyStr bi.claudeBranch
  · have hb : runBody env now resp home c =
        (Except.error ("Failed to refresh token: " ++ toString resp.status ++ " " ++
           resp.bodyText),
         [Effect.callStep "setupGitHubToken", Effect.callStep "parseGitHubContext",
          Effect.callStep "checkWritePermissions", Effect.callStep "checkTriggerAction",
          Effect.callStep "checkHumanActor", Effect.callStep "createInitialComment",
          Effect.callStep "fetchGitHubData", Effect.callStep "setupBranch",
          Effect.callStep "createPrompt", Effect.callStep "prepareMcpConfig",
          Effect.callStep "setupOAuthCredentials",
          Effect.httpPost oauthTokenUrl
            [("grant_type", "refresh_token"),
             ("refresh_token", env.CLAUDE_REFRESH_TOKEN.getD "")]]) := by
      simp [runBody, andThen, callStepEff, h1, h2, h3, h4, h5, h6, h7, h8, h9, h10, h11,
        hu, hbi, hsetup]
    rw [run_of_runBody_error env now resp home c _ _ hb]
    simp
  · have hb : runBody env now resp home c =
        (Except.error ("Failed to refresh token: " ++ toString resp.status ++ " " ++
           resp.bodyText),
         [Effect.callStep "setupGitHubToken", Effect.callStep "parseGitHubContext",
          Effect.callStep "checkWritePermissions", Effect.callStep "checkTriggerAction",
          Effect.callStep "checkHumanActor", Effect.callStep "createInitialComment",
          Effect.callStep "fetchGitHubData", Effect.callStep "setupBranch",
          Effect.callStep "updateTrackingComment", Effect.callStep "createPrompt",
          Effect.callStep "prepareMcpConfig", Effect.callStep "setupOAuthCredentials",
          Effect.httpPost oauthTokenUrl
            [("grant_type", "refresh_token"),
             ("refresh_token", env.CLAUDE_REFRESH_TOKEN.getD "")]]) := by
      simp [runBody, andThen, callStepEff, h1, h2, h3, h4, h5, h6, h7, h8, h9, h10, h11,
        hu, hbi, hsetup]
    rw [run_of_runBody_error env now resp home c _ _ hb]
    simp

/-- Witness for C3 at a concrete input: the endpoint answers 500 `boom`. -/
theorem c3_witness :
    (refreshOAuthToken "token-r" 1000 ⟨false, 500, "boom", "", 0, ""⟩).1 =
      Except.error ("Failed to refresh token: " ++ toString (500 : Nat) ++ " " ++ "boom") ∧
    (run ⟨some "token-a", some "token-r", some "2000", some "true"⟩ 1000
        ⟨false, 500, "boom", "", 0, ""⟩ "/home/u"
        ⟨Except.ok "tok-g", Except.ok (), Except.ok true, Except.ok true, Except.ok (),
         Except.ok 9, Except.ok (), Except.ok ⟨some "claude-br", "main", "claude-br"⟩,
         Except.ok (), Except.ok (), Except.ok "cfg"⟩).exitCode = 1 ∧
    (run ⟨some "token-a", some "token-r", some "2000", some "true"⟩ 1000
        ⟨false, 500, "boom", "", 0, ""⟩ "/home/u"
        ⟨Except.ok "tok-g", Except.ok (), Except.ok true, Except.ok true, Except.ok (),
         Except.ok 9, Except.ok (), Except.ok ⟨some "claude-br", "main", "claude-br"⟩,
         Except.ok (), Except.ok (), Except.ok "cfg"⟩).failureMessage =
      some ("Prepare step failed with error: Error: " ++
        ("Failed to refresh token: " ++ toString (500 : Nat) ++ " " ++ "boom")) ∧
    writeCount (run ⟨some "token-a", some "token-r", some "2000", some "true"⟩ 1000
        ⟨false, 500, "boom", "", 0, ""⟩ "/home/u"
        ⟨Except.ok "tok-g", Except.ok (), Except.ok true, Except.ok true, Except.ok (),
         Except.ok 9, Except.ok (), Except.ok ⟨some "claude-br", "main", "claude-br"⟩,
         Except.ok (), Except.ok (), Except.ok "cfg"⟩).trace = 0 ∧
    httpPostCount (run ⟨some "token-a", some "token-r", some "2000", some "true"⟩ 1000
        ⟨false, 500, "boom", "", 0, ""⟩ "/home/u"
        ⟨Except.ok "tok-g", Except.ok (), Except.ok true, Except.ok true, Except.ok (),
         Except.ok 9, Except.ok (), Except.ok ⟨some "claude-br", "main", "claude-br"⟩,
         Except.ok (), Except.ok (), Except.ok "cfg"⟩).trace = 1 :=
  c3_failed_refresh_aborts_run ⟨some "token-a", some "token-r", some "2000", some "true"⟩
    1000 2000 ⟨false, 500, "boom", "", 0, ""⟩ "/home/u"
    ⟨Except.ok "tok-g", Except.ok (), Except.ok true, Except.ok true, Except.ok (),
     Except.ok 9, Except.ok (), Except.ok ⟨some "claude-br", "main", "claude-br"⟩,
     Except.ok (), Except.ok (), Except.ok "cfg"⟩ "tok-g" "cfg" 9
    ⟨some "claude-br", "main", "claude-br"⟩ rfl rfl (by decide) (by decide) (by decide)
    (by decide) (by decide) rfl rfl rfl rfl rfl rfl rfl rfl rfl rfl rfl

/-! ## OAuth gating: `USE_OAUTH === 'true'` -/

/-- Whenever `USE_OAUTH` is not exactly the string `true`,
`setupOAuthCredentials` is never invoked and the run performs no file write
and no HTTP call. -/
theorem run_no_oauth_of_ne (env : Env) (now : Int) (resp : RefreshResponse)
    (home : String) (c : Collab) (h : env.USE_OAUTH ≠ some "true") :
    hasCall (run env now resp home c).trace "setupOAuthCredentials" = false ∧
    writeCount (run env now resp home c).trace = 0 ∧
    httpPostCount (run env now resp home c).trace = 0 := by
  rcases hf1 : c.setupGitHubToken with e1 | v1
  · simp [runBody, andThen, callStepEff, hf1]
  rcases hf2 : c.parseGitHubContext with e2 | v2
  · simp [runBody, andThen, callStepEff, hf1, hf2]
  rcases hf3 : c.checkWritePermissions with e3 | b3
  · simp [runBody, andThen, callStepEff, hf1, hf2, hf3]
  cases b3
  · simp [runBody, andThen, callStepEff, hf1, hf2, hf3]
  rcases hf4 : c.checkTriggerAction with e4 | b4
  · simp [runBody, andThen, callStepEff, hf1, hf2, hf3, hf4]
  cases b4
  · simp [runBody, andThen, callStepEff, hf1, hf2, hf3, hf4]
  rcases hf5 : c.checkHumanActor with e5 | v5
  · simp [runBody, andThen, callStepEff, hf1, hf2, hf3, hf4, hf5]
  rcases hf6 : c.createInitialComment with e6 | v6
  · simp [runBody, andThen, callStepEff, hf1, hf2, hf3, hf4, hf5, hf6]
  rcases hf7 : c.fetchGitHubData with e7 | v7
  · simp [runBody, andThen, callStepEff, hf1, hf2, hf3, hf4, hf5, hf6, hf7]
  rcases hf8 : c.setupBranch with e8 | bi
  · simp [runBody, andThen, callStepEff, hf1, hf2, hf3, hf4, hf5, hf6, hf7, hf8]
  cases hbi : jsTruthyStr bi.claudeBranch
  · rcases hf10 : c.createPrompt with e10 | v10
    · simp [runBody, andThen, callStepEff, hf1, hf2, hf3, hf4, hf5, hf6, hf7, hf8, hbi,
        hf10]
    rcases hf11 : c.prepareMcpConfig with e11 | mcp
    · simp [runBody, andThen, callStepEff, hf1, hf2, hf3, hf4, hf5, hf6, hf7, hf8, hbi,
        hf10, hf11]
    simp [runBody, andThen, callStepEff, hf1, hf2, hf3, hf4, hf5, hf6, hf7, hf8, hbi,
      hf10, hf11, h]
  · rcases hf9 : c.updateTrackingComment with e9 | v9
    · simp [runBody, andThen, callStepEff, hf1, hf2, hf3, hf4, hf5, hf6, hf7, hf8, hbi,
        hf9]
    rcases hf10 : c.createPrompt with e10 | v10
    · simp [runBody, andThen, callStepEff, hf1, hf2, hf3, hf4, hf5, hf6, hf7, hf8, hbi,
        hf9, hf10]
    rcases hf11 : c.prepareMcpConfig with e11 | mcp
    · simp [runBody, andThen, callStepEff, hf1, hf2, hf3, hf4, hf5, hf6, hf7, hf8, hbi,
        hf9, hf10, hf11]
    simp [runBody, andThen, callStepEff, hf1, hf2, hf3, hf4, hf5, hf6, hf7, hf8, hbi,
      hf9, hf10, hf11, h]

/-! ## C7: no credentials file when USE_OAUTH is unset or false -/

/-- **C7**: in every run where `USE_OAUTH` is unset or the string `false`,
`setupOAuthCredentials` is never invoked and no credentials file is
written. -/
theorem c7_no_oauth_no_credentials (env : Env) (now : Int) (resp : RefreshResponse)
    (home : String) (c : Collab)
    (h : env.USE_OAUTH = none ∨ env.USE_OAUTH = some "false") :
    hasCall (run env now resp home c).trace "setupOAuthCredentials" = false ∧
    writeCount (run env now resp home c).trace = 0 := by
  have hne : env.USE_OAUTH ≠ some "true" := by
    rcases h with h | h <;> simp [h]
  obtain ⟨hc, hw, -⟩ := run_no_oauth_of_ne env now resp home c hne
  exact ⟨hc, hw⟩

/-- Witness for C7 at a concrete input: `USE_OAUTH` unset, full pipeline
otherwise succeeding. -/
theorem c7_witness :
    hasCall (run ⟨some "a", some "r", some "1000", none⟩ 0 ⟨true, 200, "", "", 0, ""⟩ "/h"
        ⟨Except.ok "gt", Except.ok (), Except.ok true, Except.ok true, Except.ok (),
         Except.ok 1, Except.ok (), Except.ok ⟨some "b", "main", "b"⟩, Except.ok (),
         Except.ok (), Except.ok "m"⟩).trace "setupOAuthCredentials" = false ∧
    writeCount (run ⟨some "a", some "r", some "1000", none⟩ 0 ⟨true, 200, "", "", 0, ""⟩
        "/h"
        ⟨Except.ok "gt", Except.ok (), Except.ok true, Except.ok true, Except.ok (),
         Except.ok 1, Except.ok (), Except.ok ⟨some "b", "main", "b"⟩, Except.ok (),
         Except.ok (), Except.ok "m"⟩).trace = 0 :=
  c7_no_oauth_no_credentials ⟨some "a", some "r", some "1000", none⟩ 0
    ⟨true, 200, "", "", 0, ""⟩ "/h"
    ⟨Except.ok "gt", Except.ok (), Except.ok true, Except.ok true, Except.ok (),
     Except.ok 1, Except.ok (), Except.ok ⟨some "b", "main", "b"⟩, Except.ok (),
     Except.ok (), Except.ok "m"⟩ (Or.inl rfl)

/-! ## C9: OAuth setup is gated by strict equality with the string true -/

/-- **C9**: the OAuth setup step runs only when `USE_OAUTH` is exactly the
string `true` (strict equality): for every other value — e.g. `True`,
`TRUE`, `1`, `yes`, or unset — `setupOAuthCredentials` is skipped, while
with exactly `true` a run that reaches step 12 does invoke it. -/
theorem c9_oauth_gated_by_strict_true :
    (∀ (env : Env) (now : Int) (resp : RefreshResponse) (home : String) (c : Collab),
      env.USE_OAUTH ≠ some "true" →
      hasCall (run env now resp home c).trace "setupOAuthCredentials" = false) ∧
    (∀ (env : Env) (now : Int) (resp : RefreshResponse) (home : String) (c : Collab)
       (gtok mcp : String) (cid : Int) (bi : BranchInfo),
      env.USE_OAUTH = some "true" →
      c.setupGitHubToken = Except.ok gtok →
      c.parseGitHubContext = Except.ok () →
      c.checkWritePermissions = Except.ok true →
      c.checkTriggerAction = Except.ok true →
      c.checkHumanActor = Except.ok () →
      c.createInitialComment = Except.ok cid →
      c.fetchGitHubData = Except.ok () →
      c.setupBranch = Except.ok bi →
      c.updateTrackingComment = Except.ok () →
      c.createPrompt = Except.ok () →
      c.prepareMcpConfig = Except.ok mcp →
      hasCall (run env now resp home c).trace "setupOAuthCredentials" = true) := by
  constructor
  · intro env now resp home c h
    exact (run_no_oauth_of_ne env now resp home c h).1
  · intro env now resp home c gtok mcp cid bi hu h1 h2 h3 h4 h5 h6 h7 h8 h9 h10 h11
    cases hbi : jsTruthyStr bi.claudeBranch <;>
      rcases hs : setupOAuthCredentials env now resp home with ⟨rr, eff⟩ <;>
      rcases rr with es | u <;>
      simp [runBody, andThen, callStepEff, h1, h2, h3, h4, h5, h6, h7, h8, h9, h10,
        h11, hu, hbi, hs]

/-- Witness for C9 at a concrete input: `USE_OAUTH` set to `TRUE`
(wrong case) skips the OAuth step. -/
theorem c9_witness :
    hasCall (run ⟨some "a", some "r", some "1000", some "TRUE"⟩ 0
        ⟨true, 200, "", "", 0, ""⟩ "/h"
        ⟨Except.ok "gt", Except.ok (), Except.ok true, Except.ok true, Except.ok (),
         Except.ok 1, Except.ok (), Except.ok ⟨some "b", "main", "b"⟩, Except.ok (),
         Except.ok (), Except.ok "m"⟩).trace "setupOAuthCredentials" = false :=
  c9_oauth_gated_by_strict_true.1 ⟨some "a", some "r", some "1000", some "TRUE"⟩ 0
    ⟨true, 200, "", "", 0, ""⟩ "/h"
    ⟨Except.ok "gt", Except.ok (), Except.ok true, Except.ok true, Except.ok (),
     Except.ok 1, Except.ok (), Except.ok ⟨some "b", "main", "b"⟩, Except.ok (),
     Except.ok (), Except.ok "m"⟩ (by decide)

/-! ## Per-step failure lemmas for C6 -/

/-- The effects of `setupOAuthCredentials` contain no collaborator
invocation marker. -/
theorem setupOAuth_no_call (env : Env) (now : Int) (resp : RefreshResponse)
    (home : String) (n : String) :
    hasCall (setupOAuthCredentials env now resp home).2 n = false := by
  by_cases h0 : env.CLAUDE_ACCESS_TOKEN.getD "" = "" ∨
      env.CLAUDE_REFRESH_TOKEN.getD "" = "" ∨ env.CLAUDE_EXPIRES_AT.getD "" = ""
  · simp [setupOAuthCredentials, h0]
  · cases h1 : jsLeNaN (jsParseInt (env.CLAUDE_EXPIRES_AT.getD "")) (now + 300000)
    · simp [setupOAuthCredentials, h0, h1, writeCredentialsEffects]
    · cases h2 : resp.ok <;>
        simp [setupOAuthCredentials, refreshOAuthToken, h0, h1, h2,
          writeCredentialsEffects]

/-- The effects of `setupOAuthCredentials` contain no `core.setOutput`. -/
theorem setupOAuth_no_output (env : Env) (now : Int) (resp : RefreshResponse)
    (home : String) :
    hasOutput (setupOAuthCredentials env now resp home).2 = false := by
  by_cases h0 : env.CLAUDE_ACCESS_TOKEN.getD "" = "" ∨
      env.CLAUDE_REFRESH_TOKEN.getD "" = "" ∨ env.CLAUDE_EXPIRES_AT.getD "" = ""
  · simp [setupOAuthCredentials, h0]
  · cases h1 : jsLeNaN (jsParseInt (env.CLAUDE_EXPIRES_AT.getD "")) (now + 300000)
    · simp [setupOAuthCredentials, h0, h1, writeCredentialsEffects]
    · cases h2 : resp.ok <;>
        simp [setupOAuthCredentials, refreshOAuthToken, h0, h1, h2,
          writeCredentialsEffects]

/-- If `setupGitHubToken` raises, no pipeline step after it runs and no
output is emitted. -/
theorem runFail_setupGitHubToken (env : Env) (now : Int) (resp : RefreshResponse)
    (home : String) (c : Collab) (e : String)
    (hf : c.setupGitHubToken = Except.error e) :
    (∀ n ∈ stepSuccessors "setupGitHubToken",
        hasCall (run env now resp home c).trace n = false) ∧
    hasOutput (run env now resp home c).trace = false := by
  simp [runBody, andThen, callStepEff, hf, stepSuccessors, pipelineOrder]

/-- If `parseGitHubContext` raises, no pipeline step after it runs and no
output is emitted. -/
theorem runFail_parseGitHubContext (env : Env) (now : Int) (resp : RefreshResponse)
    (home : String) (c : Collab) (e : String)
    (hf : c.parseGitHubContext = Except.error e) :
    (∀ n ∈ stepSuccessors "parseGitHubContext",
        hasCall (run env now resp home c).trace n = false) ∧
    hasOutput (run env now resp home c).trace = false := by
  rcases hf1 : c.setupGitHubToken with e1 | v1
  · simp [runBody, andThen, callStepEff, hf1, stepSuccessors, pipelineOrder]
  simp [runBody, andThen, callStepEff, hf1, hf, stepSuccessors, pipelineOrder]

/-- If `checkWritePermissions` raises, no pipeline step after it runs and no
output is emitted. -/
theorem runFail_checkWritePermissions (env : Env) (now : Int) (resp : RefreshResponse)
    (home : String) (c : Collab) (e : String)
    (hf : c.checkWritePermissions = Except.error e) :
    (∀ n ∈ stepSuccessors "checkWritePermissions",
        hasCall (run env now resp home c).trace n = false) ∧
    hasOutput (run env now resp home c).trace = false := by
  rcases hf1 : c.setupGitHubToken with e1 | v1
  · simp [runBody, andThen, callStepEff, hf1, stepSuccessors, pipelineOrder]
  rcases hf2 : c.parseGitHubContext with e2 | v2
  · simp [runBody, andThen, callStepEff, hf1, hf2, stepSuccessors, pipelineOrder]
  simp [runBody, andThen, callStepEff, hf1, hf2, hf, stepSuccessors, pipelineOrder]

/-- If `checkTriggerAction` raises, no pipeline step after it runs and no
output is emitted. -/
theorem runFail_checkTriggerAction (env : Env) (now : Int) (resp : RefreshResponse)
    (home : String) (c : Collab) (e : String)
    (hf : c.checkTriggerAction = Except.error e) :
    (∀ n ∈ stepSuccessors "checkTriggerAction",
        hasCall (run env now resp home c).trace n = false) ∧
    hasOutput (run env now resp home c).trace = false := by
  rcases hf1 : c.setupGitHubToken with e1 | v1
  · simp [runBody, andThen, callStepEff, hf1, stepSuccessors, pipelineOrder]
  rcases hf2 : c.parseGitHubContext with e2 | v2
  · simp [runBody, andThen, callStepEff, hf1, hf2, stepSuccessors, pipelineOrder]
  rcases hf3 : c.checkWritePermissions with e3 | b3
  · simp [runBody, andThen, callStepEff, hf1, hf2, hf3, stepSuccessors, pipelineOrder]
  cases b3
  · simp [runBody, andThen, callStepEff, hf1, hf2, hf3, stepSuccessors, pipelineOrder]
  simp [runBody, andThen, callStepEff, hf1, hf2, hf3, hf, stepSuccessors, pipelineOrder]

/-- If `checkHumanActor` raises, no pipeline step after it runs and no
output is emitted. -/
theorem runFail_checkHumanActor (env : Env) (now : Int) (resp : RefreshResponse)
    (home : String) (c : Collab) (e : String)
    (hf : c.checkHumanActor = Except.error e) :
    (∀ n ∈ stepSuccessors "checkHumanActor",
        hasCall (run env now resp home c).trace n = false) ∧
    hasOutput (run env now resp home c).trace = false := by
  rcases hf1 : c.setupGitHubToken with e1 | v1
  · simp [runBody, andThen, callStepEff, hf1, stepSuccessors, pipelineOrder]
  rcases hf2 : c.parseGitHubContext with e2 | v2
  · simp [runBody, andThen, callStepEff, hf1, hf2, stepSuccessors, pipelineOrder]
  rcases hf3 : c.checkWritePermissions with e3 | b3
  · simp [runBody, andThen, callStepEff, hf1, hf2, hf3, stepSuccessors, pipelineOrder]
  cases b3
  · simp [runBody, andThen, callStepEff, hf1, hf2, hf3, stepSuccessors, pipelineOrder]
  rcases hf4 : c.checkTriggerAction with e4 | b4
  · simp [runBody, andThen, callStepEff, hf1, hf2, hf3, hf4, stepSuccessors, pipelineOrder]
  cases b4
  · simp [runBody, andThen, callStepEff, hf1, hf2, hf3, hf4, stepSuccessors, pipelineOrder]
  simp [runBody, andThen, callStepEff, hf1, hf2, hf3, hf4, hf, stepSuccessors, pipelineOrder]

/-- If `createInitialComment` raises, no pipeline step after it runs and no
output is emitted. -/
theorem runFail_createInitialComment (env : Env) (now : Int) (resp : RefreshResponse)
    (home : String) (c : Collab) (e : String)
    (hf : c.createInitialComment = Except.error e) :
    (∀ n ∈ stepSuccessors "createInitialComment",
        hasCall (run env now resp home c).trace n = false) ∧
    hasOutput (run env now resp home c).trace = false := by
  rcases hf1 : c.setupGitHubToken with e1 | v1
  · simp [runBody, andThen, callStepEff, hf1, stepSuccessors, pipelineOrder]
  rcases hf2 : c.parseGitHubContext with e2 | v2
  · simp [runBody, andThen, callStepEff, hf1, hf2, stepSuccessors, pipelineOrder]
  rcases hf3 : c.checkWritePermissions with e3 | b3
  · simp [runBody, andThen, callStepEff, hf1, hf2, hf3, stepSuccessors, pipelineOrder]
  cases b3
  · simp [runBody, andThen, callStepEff, hf1, hf2, hf3, stepSuccessors, pipelineOrder]
  rcases hf4 : c.checkTriggerAction with e4 | b4
  · simp [runBody, andThen, callStepEff, hf1, hf2, hf3, hf4, stepSuccessors, pipelineOrder]
  cases b4
  · simp [runBody, andThen, callStepEff, hf1, hf2, hf3, hf4, stepSuccessors, pipelineOrder]
  rcases hf5 : c.checkHumanActor with e5 | v5
  · simp [runBody, andThen, callStepEff, hf1, hf2, hf3, hf4, hf5, stepSuccessors, pipelineOrder]
  simp [runBody, andThen, callStepEff, hf1, hf2, hf3, hf4, hf5, hf, stepSuccessors, pipelineOrder]

/-- If `fetchGitHubData` raises, no pipeline step after it runs and no
output is emitted. -/
theorem runFail_fetchGitHubData (env : Env) (now : Int) (resp : RefreshResponse)
    (home : String) (c : Collab) (e : String)
    (hf : c.fetchGitHubData = Except.error e) :
    (∀ n ∈ stepSuccessors "fetchGitHubData",
        hasCall (run env now resp home c).trace n = false) ∧
    hasOutput (run env now resp home c).trace = false := by
  rcases hf1 : c.setupGitHubToken with e1 | v1
  · simp [runBody, andThen, callStepEff, hf1, stepSuccessors, pipelineOrder]
  rcases hf2 : c.parseGitHubContext with e2 | v2
  · simp [runBody, andThen, callStepEff, hf1, hf2, stepSuccessors, pipelineOrder]
  rcases hf3 : c.checkWritePermissions with e3 | b3
  · simp [runBody, andThen, callStepEff, hf1, hf2, hf3, stepSuccessors, pipelineOrder]
  cases b3
  · simp [runBody, andThen, callStepEff, hf1, hf2, hf3, stepSuccessors, pipelineOrder]
  rcases hf4 : c.checkTriggerAction with e4 | b4
  · simp [runBody, andThen, callStepEff, hf1, hf2, hf3, hf4, stepSuccessors, pipelineOrder]
  cases b4
  · simp [runBody, andThen, callStepEff, hf1, hf2, hf3, hf4, stepSuccessors, pipelineOrder]
  rcases hf5 : c.checkHumanActor with e5 | v5
  · simp [runBody, andThen, callStepEff, hf1, hf2, hf3, hf4, hf5, stepSuccessors, pipelineOrder]
  rcases hf6 : c.createInitialComment with e6 | v6
  · simp [runBody, andThen, callStepEff, hf1, hf2, hf3, hf4, hf5, hf6, stepSuccessors, pipelineOrder]
  simp [runBody, andThen, callStepEff, hf1, hf2, hf3, hf4, hf5, hf6, hf, stepSuccessors, pipelineOrder]

/-- If `setupBranch` raises, no pipeline step after it runs and no
output is emitted. -/
theorem runFail_setupBranch (env : Env) (now : Int) (resp : RefreshResponse)
    (home : String) (c : Collab) (e : String)
    (hf : c.setupBranch = Except.error e) :
    (∀ n ∈ stepSuccessors "setupBranch",
        hasCall (run env now resp home c).trace n = false) ∧
    hasOutput (run env now resp home c).trace = false := by
  rcases hf1 : c.setupGitHubToken with e1 | v1
  · simp [runBody, andThen, callStepEff, hf1, stepSuccessors, pipelineOrder]
  rcases hf2 : c.parseGitHubContext with e2 | v2
  · simp [runBody, andThen, callStepEff, hf1, hf2, stepSuccessors, pipelineOrder]
  rcases hf3 : c.checkWritePermissions with e3 | b3
  · simp [runBody, andThen, callStepEff, hf1, hf2, hf3, stepSuccessors, pipelineOrder]
  cases b3
  · simp [runBody, andThen, callStepEff, hf1, hf2, hf3, stepSuccessors, pipelineOrder]
  rcases hf4 : c.checkTriggerAction with e4 | b4
  · simp [runBody, andThen, callStepEff, hf1, hf2, hf3, hf4, stepSuccessors, pipelineOrder]
  cases b4
  · simp [runBody, andThen, callStepEff, hf1, hf2, hf3, hf4, stepSuccessors, pipelineOrder]
  rcases hf5 : c.checkHumanActor with e5 | v5
  · simp [runBody, andThen, callStepEff, hf1, hf2, hf3, hf4, hf5, stepSuccessors, pipelineOrder]
  rcases hf6 : c.createInitialComment with e6 | v6
  · simp [runBody, andThen, callStepEff, hf1, hf2, hf3, hf4, hf5, hf6, stepSuccessors, pipelineOrder]
  rcases hf7 : c.fetchGitHubData with e7 | v7
  · simp [runBody, andThen, callStepEff, hf1, hf2, hf3, hf4, hf5, hf6, hf7, stepSuccessors, pipelineOrder]
  simp [runBody, andThen, callStepEff, hf1, hf2, hf3, hf4, hf5, hf6, hf7, hf, stepSuccessors, pipelineOrder]

/-- If `checkWritePermissions` returns `false` (the explicit throw), no
pipeline step after it runs and no output is emitted. -/
theorem runFail_checkWritePermissionsFalse (env : Env) (now : Int) (resp : RefreshResponse)
    (home : String) (c : Collab)
    (hf : c.checkWritePermissions = Except.ok false) :
    (∀ n ∈ stepSuccessors "checkWritePermissions",
        hasCall (run env now resp home c).trace n = false) ∧
    hasOutput (run env now resp home c).trace = false := by
  rcases hf1 : c.setupGitHubToken with e1 | v1
  · simp [runBody, andThen, callStepEff, hf1, stepSuccessors, pipelineOrder]
  rcases hf2 : c.parseGitHubContext with e2 | v2
  · simp [runBody, andThen, callStepEff, hf1, hf2, stepSuccessors, pipelineOrder]
  simp [runBody, andThen, callStepEff, hf1, hf2, hf, stepSuccessors, pipelineOrder]

/-- If `updateTrackingComment` is invoked and raises, no pipeline step
after it runs and no output is emitted. -/
theorem runFail_updateTrackingComment (env : Env) (now : Int) (resp : RefreshResponse)
    (home : String) (c : Collab) (e : String)
    (hf : c.updateTrackingComment = Except.error e)
    (hcall : hasCall (run env now resp home c).trace "updateTrackingComment" = true) :
    (∀ n ∈ stepSuccessors "updateTrackingComment",
        hasCall (run env now resp home c).trace n = false) ∧
    hasOutput (run env now resp home c).trace = false := by
  rcases hf1 : c.setupGitHubToken with e1 | v1
  · simp [runBody, andThen, callStepEff, hf1, stepSuccessors, pipelineOrder]
  rcases hf2 : c.parseGitHubContext with e2 | v2
  · simp [runBody, andThen, callStepEff, hf1, hf2, stepSuccessors, pipelineOrder]
  rcases hf3 : c.checkWritePermissions with e3 | b3
  · simp [runBody, andThen, callStepEff, hf1, hf2, hf3, stepSuccessors, pipelineOrder]
  cases b3
  · simp [runBody, andThen, callStepEff, hf1, hf2, hf3, stepSuccessors, pipelineOrder]
  rcases hf4 : c.checkTriggerAction with e4 | b4
  · simp [runBody, andThen, callStepEff, hf1, hf2, hf3, hf4, stepSuccessors, pipelineOrder]
  cases b4
  · simp [runBody, andThen, callStepEff, hf1, hf2, hf3, hf4, stepSuccessors, pipelineOrder]
  rcases hf5 : c.checkHumanActor with e5 | v5
  · simp [runBody, andThen, callStepEff, hf1, hf2, hf3, hf4, hf5, stepSuccessors, pipelineOrder]
  rcases hf6 : c.createInitialComment with e6 | v6
  · simp [runBody, andThen, callStepEff, hf1, hf2, hf3, hf4, hf5, hf6, stepSuccessors, pipelineOrder]
  rcases hf7 : c.fetchGitHubData with e7 | v7
  · simp [runBody, andThen, callStepEff, hf1, hf2, hf3, hf4, hf5, hf6, hf7, stepSuccessors, pipelineOrder]
  rcases hf8 : c.setupBranch with e8 | bi
  · simp [runBody, andThen, callStepEff, hf1, hf2, hf3, hf4, hf5, hf6, hf7, hf8, stepSuccessors, pipelineOrder]
  cases hbi : jsTruthyStr bi.claudeBranch
  · exfalso
    rcases hf10 : c.createPrompt with e10 | v10
    · simp [runBody, andThen, callStepEff, hf1, hf2, hf3, hf4, hf5, hf6, hf7, hf8, hbi, hf10] at hcall
    rcases hf11 : c.prepareMcpConfig with e11 | mcp
    · simp [runBody, andThen, callStepEff, hf1, hf2, hf3, hf4, hf5, hf6, hf7, hf8, hbi, hf10, hf11] at hcall
    by_cases hu : env.USE_OAUTH = some "true"
    · rcases hs : setupOAuthCredentials env now resp home with ⟨rr, eff⟩
      have hnc : hasCall eff "updateTrackingComment" = false := by
        have h' := setupOAuth_no_call env now resp home "updateTrackingComment"
        rw [hs] at h'
        exact h'
      rcases rr with es | u <;>
        simp [runBody, andThen, callStepEff, hf1, hf2, hf3, hf4, hf5, hf6, hf7, hf8, hbi, hf10, hf11, hu, hs, hnc] at hcall
    · simp [runBody, andThen, callStepEff, hf1, hf2, hf3, hf4, hf5, hf6, hf7, hf8, hbi, hf10, hf11, hu] at hcall
  · simp [runBody, andThen, callStepEff, hf1, hf2, hf3, hf4, hf5, hf6, hf7, hf8, hbi, hf, stepSuccessors, pipelineOrder]

/-- If `createPrompt` raises, no pipeline step after it runs and no
output is emitted. -/
theorem runFail_createPrompt (env : Env) (now : Int) (resp : RefreshResponse)
    (home : String) (c : Collab) (e : String)
    (hf : c.createPrompt = Except.error e) :
    (∀ n ∈ stepSuccessors "createPrompt",
        hasCall (run env now resp home c).trace n = false) ∧
    hasOutput (run env now resp home c).trace = false := by
  rcases hf1 : c.setupGitHubToken with e1 | v1
  · simp [runBody, andThen, callStepEff, hf1, stepSuccessors, pipelineOrder]
  rcases hf2 : c.parseGitHubContext with e2 | v2
  · simp [runBody, andThen, callStepEff, hf1, hf2, stepSuccessors, pipelineOrder]
  rcases hf3 : c.checkWritePermissions with e3 | b3
  · simp [runBody, andThen, callStepEff, hf1, hf2, hf3, stepSuccessors, pipelineOrder]
  cases b3
  · simp [runBody, andThen, callStepEff, hf1, hf2, hf3, stepSuccessors, pipelineOrder]
  rcases hf4 : c.checkTriggerAction with e4 | b4
  · simp [runBody, andThen, callStepEff, hf1, hf2, hf3, hf4, stepSuccessors, pipelineOrder]
  cases b4
  · simp [runBody, andThen, callStepEff, hf1, hf2, hf3, hf4, stepSuccessors, pipelineOrder]
  rcases hf5 : c.checkHumanActor with e5 | v5
  · simp [runBody, andThen, callStepEff, hf1, hf2, hf3, hf4, hf5, stepSuccessors, pipelineOrder]
  rcases hf6 : c.createInitialComment with e6 | v6
  · simp [runBody, andThen, callStepEff, hf1, hf2, hf3, hf4, hf5, hf6, stepSuccessors, pipelineOrder]
  rcases hf7 : c.fetchGitHubData with e7 | v7
  · simp [runBody, andThen, callStepEff, hf1, hf2, hf3, hf4, hf5, hf6, hf7, stepSuccessors, pipelineOrder]
  rcases hf8 : c.setupBranch with e8 | bi
  · simp [runBody, andThen, callStepEff, hf1, hf2, hf3, hf4, hf5, hf6, hf7, hf8, stepSuccessors, pipelineOrder]
  cases hbi : jsTruthyStr bi.claudeBranch
  · simp [runBody, andThen, callStepEff, hf1, hf2, hf3, hf4, hf5, hf6, hf7, hf8, hbi, hf, stepSuccessors, pipelineOrder]
  · rcases hf9 : c.updateTrackingComment with e9 | v9
    · simp [runBody, andThen, callStepEff, hf1, hf2, hf3, hf4, hf5, hf6, hf7, hf8, hbi, hf9, stepSuccessors, pipelineOrder]
    simp [runBody, andThen, callStepEff, hf1, hf2, hf3, hf4, hf5, hf6, hf7, hf8, hbi, hf9, hf, stepSuccessors, pipelineOrder]

/-- If `prepareMcpConfig` raises, no pipeline step after it runs and no
output is emitted. -/
theorem runFail_prepareMcpConfig (env : Env) (now : Int) (resp : RefreshResponse)
    (home : String) (c : Collab) (e : String)
    (hf : c.prepareMcpConfig = Except.error e) :
    (∀ n ∈ stepSuccessors "prepareMcpConfig",
        hasCall (run env now resp home c).trace n = false) ∧
    hasOutput (run env now resp home c).trace = false := by
  rcases hf1 : c.setupGitHubToken with e1 | v1
  · simp [runBody, andThen, callStepEff, hf1, stepSuccessors, pipelineOrder]
  rcases hf2 : c.parseGitHubContext with e2 | v2
  · simp [runBody, andThen, callStepEff, hf1, hf2, stepSuccessors, pipelineOrder]
  rcases hf3 : c.checkWritePermissions with e3 | b3
  · simp [runBody, andThen, callStepEff, hf1, hf2, hf3, stepSuccessors, pipelineOrder]
  cases b3
  · simp [runBody, andThen, callStepEff, hf1, hf2, hf3, stepSuccessors, pipelineOrder]
  rcases hf4 : c.checkTriggerAction with e4 | b4
  · simp [runBody, andThen, callStepEff, hf1, hf2, hf3, hf4, stepSuccessors, pipelineOrder]
  cases b4
  · simp [runBody, andThen, callStepEff, hf1, hf2, hf3, hf4, stepSuccessors, pipelineOrder]
  rcases hf5 : c.checkHumanActor with e5 | v5
  · simp [runBody, andThen, callStepEff, hf1, hf2, hf3, hf4, hf5, stepSuccessors, pipelineOrder]
  rcases hf6 : c.createInitialComment with e6 | v6
  · simp [runBody, andThen, callStepEff, hf1, hf2, hf3, hf4, hf5, hf6, stepSuccessors, pipelineOrder]
  rcases hf7 : c.fetchGitHubData with e7 | v7
  · simp [runBody, andThen, callStepEff, hf1, hf2, hf3, hf4, hf5, hf6, hf7, stepSuccessors, pipelineOrder]
  rcases hf8 : c.setupBranch with e8 | bi
  · simp [runBody, andThen, callStepEff, hf1, hf2, hf3, hf4, hf5, hf6, hf7, hf8, stepSuccessors, pipelineOrder]
  cases hbi : jsTruthyStr bi.claudeBranch
  · rcases hf10 : c.createPrompt with e10 | v10
    · simp [runBody, andThen, callStepEff, hf1, hf2, hf3, hf4, hf5, hf6, hf7, hf8, hbi, hf10, stepSuccessors, pipelineOrder]
    simp [runBody, andThen, callStepEff, hf1, hf2, hf3, hf4, hf5, hf6, hf7, hf8, hbi, hf10, hf, stepSuccessors, pipelineOrder]
  · rcases hf9 : c.updateTrackingComment with e9 | v9
    · simp [runBody, andThen, callStepEff, hf1, hf2, hf3, hf4, hf5, hf6, hf7, hf8, hbi, hf9, stepSuccessors, pipelineOrder]
    rcases hf10 : c.createPrompt with e10 | v10
    · simp [runBody, andThen, callStepEff, hf1, hf2, hf3, hf4, hf5, hf6, hf7, hf8, hbi, hf9, hf10, stepSuccessors, pipelineOrder]
    simp [runBody, andThen, callStepEff, hf1, hf2, hf3, hf4, hf5, hf6, hf7, hf8, hbi, hf9, hf10, hf, stepSuccessors, pipelineOrder]

/-- If OAuth is enabled and `setupOAuthCredentials` raises, no output is
emitted. -/
theorem runFail_oauthSetup (env : Env) (now : Int) (resp : RefreshResponse)
    (home : String) (c : Collab) (e : String)
    (hu : env.USE_OAUTH = some "true")
    (hf : (setupOAuthCredentials env now resp home).1 = Except.error e) :
    hasOutput (run env now resp home c).trace = false := by
  rcases hs : setupOAuthCredentials env now resp home with ⟨rr, eff⟩
  have hrr : rr = Except.error e := by
    rw [hs] at hf
    exact hf
  subst hrr
  have heff : hasOutput eff = false := by
    have h' := setupOAuth_no_output env now resp home
    rw [hs] at h'
    exact h'
  rcases hf1 : c.setupGitHubToken with e1 | v1
  · simp [runBody, andThen, callStepEff, hf1]
  rcases hf2 : c.parseGitHubContext with e2 | v2
  · simp [runBody, andThen, callStepEff, hf1, hf2]
  rcases hf3 : c.checkWritePermissions with e3 | b3
  · simp [runBody, andThen, callStepEff, hf1, hf2, hf3]
  cases b3
  · simp [runBody, andThen, callStepEff, hf1, hf2, hf3]
  rcases hf4 : c.checkTriggerAction with e4 | b4
  · simp [runBody, andThen, callStepEff, hf1, hf2, hf3, hf4]
  cases b4
  · simp [runBody, andThen, callStepEff, hf1, hf2, hf3, hf4]
  rcases hf5 : c.checkHumanActor with e5 | v5
  · simp [runBody, andThen, callStepEff, hf1, hf2, hf3, hf4, hf5]
  rcases hf6 : c.createInitialComment with e6 | v6
  · simp [runBody, andThen, callStepEff, hf1, hf2, hf3, hf4, hf5, hf6]
  rcases hf7 : c.fetchGitHubData with e7 | v7
  · simp [runBody, andThen, callStepEff, hf1, hf2, hf3, hf4, hf5, hf6, hf7]
  rcases hf8 : c.setupBranch with e8 | bi
  · simp [runBody, andThen, callStepEff, hf1, hf2, hf3, hf4, hf5, hf6, hf7, hf8]
  cases hbi : jsTruthyStr bi.claudeBranch
  · rcases hf10 : c.createPrompt with e10 | v10
    · simp [runBody, andThen, callStepEff, hf1, hf2, hf3, hf4, hf5, hf6, hf7, hf8, hbi, hf10]
    rcases hf11 : c.prepareMcpConfig with e11 | mcp
    · simp [runBody, andThen, callStepEff, hf1, hf2, hf3, hf4, hf5, hf6, hf7, hf8, hbi, hf10, hf11]
    simp [runBody, andThen, callStepEff, hf1, hf2, hf3, hf4, hf5, hf6, hf7, hf8, hbi, hf10, hf11, hu, hs, heff]
  · rcases hf9 : c.updateTrackingComment with e9 | v9
    · simp [runBody, andThen, callStepEff, hf1, hf2, hf3, hf4, hf5, hf6, hf7, hf8, hbi, hf9]
    rcases hf10 : c.createPrompt with e10 | v10
    · simp [runBody, andThen, callStepEff, hf1, hf2, hf3, hf4, hf5, hf6, hf7, hf8, hbi, hf9, hf10]
    rcases hf11 : c.prepareMcpConfig with e11 | mcp
    · simp [runBody, andThen, callStepEff, hf1, hf2, hf3, hf4, hf5, hf6, hf7, hf8, hbi, hf9, hf10, hf11]
    simp [runBody, andThen, callStepEff, hf1, hf2, hf3, hf4, hf5, hf6, hf7, hf8, hbi, hf9, hf10, hf11, hu, hs, heff]

/-! ## C6: all errors are fatal and reported once at the top level -/

/-- **C6**: any error raised by a pipeline step is caught exactly once by
the single top-level catch of `run`: the failure is reported with the
message `Prepare step failed with error: <error>` and the process exits
with code 1 (first conjunct); and whichever step raises — any of the eleven
collaborator steps, the explicit no-write-permissions throw, or the OAuth
credentials setup — no pipeline step after the failing one executes and no
output is emitted (remaining conjuncts). -/
theorem c6_errors_fatal_caught_once (env : Env) (now : Int) (resp : RefreshResponse)
    (home : String) (c : Collab) :
    (∀ (e : String) (tr : List Effect),
      runBody env now resp home c = (Except.error e, tr) →
      run env now resp home c =
        { trace := tr
          failureMessage := some ("Prepare step failed with error: Error: " ++ e)
          exitCode := 1 }) ∧
    (∀ e, c.setupGitHubToken = Except.error e →
      (∀ n ∈ stepSuccessors "setupGitHubToken",
        hasCall (run env now resp home c).trace n = false) ∧
      hasOutput (run env now resp home c).trace = false) ∧
    (∀ e, c.parseGitHubContext = Except.error e →
      (∀ n ∈ stepSuccessors "parseGitHubContext",
        hasCall (run env now resp home c).trace n = false) ∧
      hasOutput (run env now resp home c).trace = false) ∧
    (∀ e, c.checkWritePermissions = Except.error e →
      (∀ n ∈ stepSuccessors "checkWritePermissions",
        hasCall (run env now resp home c).trace n = false) ∧
      hasOutput (run env now resp home c).trace = false) ∧
    (c.checkWritePermissions = Except.ok false →
      (∀ n ∈ stepSuccessors "checkWritePermissions",
        hasCall (run env now resp home c).trace n = false) ∧
      hasOutput (run env now resp home c).trace = false) ∧
    (∀ e, c.checkTriggerAction = Except.error e →
      (∀ n ∈ stepSuccessors "checkTriggerAction",
        hasCall (run env now resp home c).trace n = false) ∧
      hasOutput (run env now resp home c).trace = false) ∧
    (∀ e, c.checkHumanActor = Except.error e →
      (∀ n ∈ stepSuccessors "checkHumanActor",
        hasCall (run env now resp home c).trace n = false) ∧
      hasOutput (run env now resp home c).trace = false) ∧
    (∀ e, c.createInitialComment = Except.error e →
      (∀ n ∈ stepSuccessors "createInitialComment",
        hasCall (run env now resp home c).trace n = false) ∧
      hasOutput (run env now resp home c).trace = false) ∧
    (∀ e, c.fetchGitHubData = Except.error e →
      (∀ n ∈ stepSuccessors "fetchGitHubData",
        hasCall (run env now resp home c).trace n = false) ∧
      hasOutput (run env now resp home c).trace = false) ∧
    (∀ e, c.setupBranch = Except.error e →
      (∀ n ∈ stepSuccessors "setupBranch",
        hasCall (run env now resp home c).trace n = false) ∧
      hasOutput (run env now resp home c).trace = false) ∧
    (∀ e, c.updateTrackingComment = Except.error e →
      hasCall (run env now resp home c).trace "updateTrackingComment" = true →
      (∀ n ∈ stepSuccessors "updateTrackingComment",
        hasCall (run env now resp home c).trace n = false) ∧
      hasOutput (run env now resp home c).trace = false) ∧
    (∀ e, c.createPrompt = Except.error e →
      (∀ n ∈ stepSuccessors "createPrompt",
        hasCall (run env now resp home c).trace n = false) ∧
      hasOutput (run env now resp home c).trace = false) ∧
    (∀ e, c.prepareMcpConfig = Except.error e →
      (∀ n ∈ stepSuccessors "prepareMcpConfig",
        hasCall (run env now resp home c).trace n = false) ∧
      hasOutput (run env now resp home c).trace = false) ∧
    (∀ e, env.USE_OAUTH = some "true" →
      (setupOAuthCredentials env now resp home).1 = Except.error e →
      hasOutput (run env now resp home c).trace = false) :=
  ⟨fun e tr h => run_of_runBody_error env now resp home c e tr h,
   fun e hf => runFail_setupGitHubToken env now resp home c e hf,
   fun e hf => runFail_parseGitHubContext env now resp home c e hf,
   fun e hf => runFail_checkWritePermissions env now resp home c e hf,
   fun hf => runFail_checkWritePermissionsFalse env now resp home c hf,
   fun e hf => runFail_checkTriggerAction env now resp home c e hf,
   fun e hf => runFail_checkHumanActor env now resp home c e hf,
   fun e hf => runFail_createInitialComment env now resp home c e hf,
   fun e hf => runFail_fetchGitHubData env now resp home c e hf,
   fun e hf => runFail_setupBranch env now resp home c e hf,
   fun e hf hcall => runFail_updateTrackingComment env now resp home c e hf hcall,
   fun e hf => runFail_createPrompt env now resp home c e hf,
   fun e hf => runFail_prepareMcpConfig env now resp home c e hf,
   fun e hu hf => runFail_oauthSetup env now resp home c e hu hf⟩

/-- Witness for C6 at a concrete input: `setupBranch` throws `boom`, the
run reports the failure and exits with code 1. -/
theorem c6_witness :
    run ⟨none, none, none, none⟩ 0 ⟨true, 200, "", "", 0, ""⟩ "/h"
      ⟨Except.ok "gt", Except.ok (), Except.ok true, Except.ok true, Except.ok (),
       Except.ok 1, Except.ok (), Except.error "boom", Except.ok (), Except.ok (),
       Except.ok "m"⟩ =
      { trace := [Effect.callStep "setupGitHubToken", Effect.callStep "parseGitHubContext",
                  Effect.callStep "checkWritePermissions", Effect.callStep "checkTriggerAction",
                  Effect.callStep "checkHumanActor", Effect.callStep "createInitialComment",
                  Effect.callStep "fetchGitHubData", Effect.callStep "setupBranch"]
        failureMessage := some ("Prepare step failed with error: Error: " ++ "boom")
        exitCode := 1 } :=
  (c6_errors_fatal_caught_once ⟨none, none, none, none⟩ 0 ⟨true, 200, "", "", 0, ""⟩ "/h"
    ⟨Except.ok "gt", Except.ok (), Except.ok true, Except.ok true, Except.ok (),
     Except.ok 1, Except.ok (), Except.error "boom", Except.ok (), Except.ok (),
     Except.ok "m"⟩).1 "boom"
    [Effect.callStep "setupGitHubToken", Effect.callStep "parseGitHubContext",
     Effect.callStep "checkWritePermissions", Effect.callStep "checkTriggerAction",
     Effect.callStep "checkHumanActor", Effect.callStep "createInitialComment",
     Effect.callStep "fetchGitHubData", Effect.callStep "setupBranch"] rfl

end Prepare
